import Mathlib

/-
  Verification of the zscaler-mcp-server ZIA tool layer.

  Shallow embedding of src/zscaler_mcp/tools/zia/*.py: the flexible
  "JSON string or native list" parameters are modelled by `JVal` /
  `ListOrStr`, remote operations are recorded as a trace of
  `RemoteCall` values, and each tool function is a pure Lean function
  from its parameters and the remote outcome to a result plus the trace
  of remote calls it issued.  Python `ValueError` is `Err.invalid`,
  `Exception` raised on a remote error is `Err.ex`, and Python-level
  faults (TypeError / AttributeError on malformed dunder calls) are
  `Err.pyFault`.
-/

namespace ZscalerMcp

/-- A decoded JSON-ish Python value as it appears in these tools'
parameters: strings, integers, nested arrays, and `other` for scalar
JSON tokens (floats, booleans, null) that none of the claims exercise
but that keep the decoder total on them. JSON objects are not produced
by any of these parameters and make the decoder fail. -/
inductive JVal where
  | s (str : String)
  | i (n : Int)
  | other (tok : String)
  | arr (elems : List JVal)

/-- The double-quote character. -/
def dqChar : Char := Char.ofNat 34

/-- The backslash character. -/
def bsChar : Char := Char.ofNat 92

/-- Drop leading JSON whitespace. -/
def skipWs : List Char → List Char
  | c :: cs =>
    if c = ' ' ∨ c = Char.ofNat 9 ∨ c = Char.ofNat 10 ∨ c = Char.ofNat 13 then skipWs cs
    else c :: cs
  | [] => []

/-- Parse the body of a JSON string after the opening quote; supports
the two escapes these parameters use. -/
def parseStrBody : List Char → Option (String × List Char)
  | [] => none
  | c :: rest =>
    if c = dqChar then some ("", rest)
    else if c = bsChar then
      match rest with
      | [] => none
      | e :: r2 =>
        if e = dqChar ∨ e = bsChar then
          match parseStrBody r2 with
          | some (s, r) => some (String.singleton e ++ s, r)
          | none => none
        else none
    else
      match parseStrBody rest with
      | some (s, r) => some (String.singleton c ++ s, r)
      | none => none

/-- Leading decimal digits of a character list. -/
def takeDigits : List Char → List Char × List Char
  | [] => ([], [])
  | c :: rest =>
    if c.isDigit then
      let (ds, r) := takeDigits rest
      (c :: ds, r)
    else ([], c :: rest)

/-- Numeric value of a digit list. -/
def digitsToNat (ds : List Char) : Nat :=
  ds.foldl (fun a c => a * 10 + (c.toNat - 48)) 0

/-- Is this character part of a non-integer numeric token? -/
def isNumCont (c : Char) : Bool :=
  c.isDigit || c = '.' || c = 'e' || c = 'E' || c = '+' || c = '-'

/-- Take the remainder of a float-like token. -/
def takeNumCont : List Char → List Char × List Char
  | [] => ([], [])
  | c :: rest =>
    if isNumCont c then
      let (ds, r) := takeNumCont rest
      (c :: ds, r)
    else ([], c :: rest)

/-- Parse a JSON number token starting at `cs`; integers become
`JVal.i`, floats become `JVal.other`. -/
def parseNum (cs : List Char) : Option (JVal × List Char) :=
  match cs with
  | [] => none
  | c :: rest =>
    if c = '-' then
      match takeDigits rest with
      | ([], _) => none
      | (ds, r) =>
        match r with
        | d :: _ =>
          if d = '.' ∨ d = 'e' ∨ d = 'E' then
            let (more, r2) := takeNumCont r
            some (JVal.other (String.mk ('-' :: ds ++ more)), r2)
          else some (JVal.i (-(digitsToNat ds : Int)), r)
        | [] => some (JVal.i (-(digitsToNat ds : Int)), r)
    else if c.isDigit then
      match takeDigits (c :: rest) with
      | ([], _) => none
      | (ds, r) =>
        match r with
        | d :: _ =>
          if d = '.' ∨ d = 'e' ∨ d = 'E' then
            let (more, r2) := takeNumCont r
            some (JVal.other (String.mk (ds ++ more)), r2)
          else some (JVal.i (digitsToNat ds : Int), r)
        | [] => some (JVal.i (digitsToNat ds : Int), r)
    else none

/-- Does `cs` start with the keyword `kw`? Returns the rest if so. -/
def stripKeyword (kw : List Char) (cs : List Char) : Option (List Char) :=
  match kw, cs with
  | [], rest => some rest
  | k :: ks, c :: rest => if c = k then stripKeyword ks rest else none
  | _ :: _, [] => none

mutual

/-- Fuel-indexed recursive-descent parser for the JSON subset these
tool parameters use (strings, integers, floats/booleans/null as opaque
scalars, arrays). -/
def parseJ : Nat → List Char → Option (JVal × List Char)
  | 0, _ => none
  | Nat.succ fuel, cs =>
    match skipWs cs with
    | [] => none
    | c :: rest =>
      if c = dqChar then
        match parseStrBody rest with
        | some (s, r) => some (JVal.s s, r)
        | none => none
      else if c = '[' then
        match skipWs rest with
        | ']' :: r2 => some (JVal.arr [], r2)
        | r1 =>
          match parseItems fuel r1 with
          | some (xs, r2) => some (JVal.arr xs, r2)
          | none => none
      else if c = 't' then
        match stripKeyword ['t', 'r', 'u', 'e'] (c :: rest) with
        | some r => some (JVal.other "true", r)
        | none => none
      else if c = 'f' then
        match stripKeyword ['f', 'a', 'l', 's', 'e'] (c :: rest) with
        | some r => some (JVal.other "false", r)
        | none => none
      else if c = 'n' then
        match stripKeyword ['n', 'u', 'l', 'l'] (c :: rest) with
        | some r => some (JVal.other "null", r)
        | none => none
      else parseNum (c :: rest)

/-- Parse one or more comma-separated array items up to the closing
bracket. -/
def parseItems : Nat → List Char → Option (List JVal × List Char)
  | 0, _ => none
  | Nat.succ fuel, cs =>
    match parseJ fuel cs with
    | none => none
    | some (v, rest) =>
      match skipWs rest with
      | ',' :: r2 =>
        match parseItems fuel r2 with
        | some (vs, r3) => some (v :: vs, r3)
        | none => none
      | ']' :: r2 => some ([v], r2)
      | _ => none

end

/-- Model of `json.loads`, restricted to the grammar these parameters use; the
whole input must be consumed (up to trailing whitespace). -/
def jsonDecode (s : String) : Option JVal :=
  match parseJ (2 * s.length + 2) s.data with
  | some (v, rest) => if skipWs rest = [] then some v else none
  | none => none

/-- Stands in for the detail text of a Python `json.JSONDecodeError`
interpolated into `f"Invalid JSON for …: {e}"`; the exact wording is a
library detail no claim depends on. -/
def jsonErrNote : String := "Expecting value"

/-- Python truthiness of an optional string parameter (`if x:`). -/
def pyTruthy : Option String → Bool
  | some s => s ≠ ""
  | none => false

/-- ASCII lower-casing of one character. -/
def pyCharLower (c : Char) : Char :=
  if 'A' ≤ c ∧ c ≤ 'Z' then Char.ofNat (c.toNat + 32) else c

/-- ASCII upper-casing of one character. -/
def pyCharUpper (c : Char) : Char :=
  if 'a' ≤ c ∧ c ≤ 'z' then Char.ofNat (c.toNat - 32) else c

/-- Python `str.lower()`, restricted to the ASCII range every
enumerated comparison in these tools uses. -/
def pyLower (s : String) : String := String.mk (s.data.map pyCharLower)

/-- Python `str.upper()`, restricted to the ASCII range every
enumerated comparison in these tools uses. -/
def pyUpper (s : String) : String := String.mk (s.data.map pyCharUpper)

mutual

/-- Python `repr(x)` for values displayed inside a container. -/
def pyReprJ : JVal → String
  | .s t => "\x27" ++ t ++ "\x27"
  | .i n => toString n
  | .other tok => tok
  | .arr xs => "[" ++ String.intercalate ", " (pyReprList xs) ++ "]"

/-- The `repr` of each element of a list. -/
def pyReprList : List JVal → List String
  | [] => []
  | x :: xs => pyReprJ x :: pyReprList xs

end

/-- Python `str(x)` for the values these parameters carry (`str` of a
string is itself, of an int its decimal form); for an `arr` the list
display, for `other` the raw token (adequate for the float case, the
only `other` these tools can meet). -/
def pyStr : JVal → String
  | .s t => t
  | .i n => toString n
  | .other tok => tok
  | .arr xs => "[" ++ String.intercalate ", " (xs.map pyReprJ) ++ "]"

/-- Python `str` of a tuple obtained by `tuple(p)` from a list `p`
(the port-tuple display in the length error message). -/
def pyStrTuple (xs : List JVal) : String :=
  if xs.length = 1 then "(" ++ String.intercalate ", " (xs.map pyReprJ) ++ ",)"
  else "(" ++ String.intercalate ", " (xs.map pyReprJ) ++ ")"

/-- Python display of a port-definition entry as `{port_tuple}`
formats it: lists were converted to tuples, scalars stay as they are. -/
def pyStrPortEntry : JVal → String
  | .arr xs => pyStrTuple xs
  | v => pyStr v

/-- Splitting a character list at every separator occurrence
(`str.split(sep)` semantics: an empty input yields one empty field). -/
def splitFields (sep : Char) : List Char → List Char → List String
  | [], acc => [String.mk acc.reverse]
  | c :: rest, acc =>
    if c = sep then String.mk acc.reverse :: splitFields sep rest []
    else splitFields sep rest (c :: acc)

/-- Python `s.split(",")`. -/
def splitOnComma (s : String) : List String := splitFields ',' s.data []

/-- Python whitespace as stripped by `str.strip()`. -/
def isPySpace (c : Char) : Bool :=
  c = ' ' ∨ c = Char.ofNat 9 ∨ c = Char.ofNat 10 ∨ c = Char.ofNat 13 ∨
    c = Char.ofNat 11 ∨ c = Char.ofNat 12

/-- Drop leading Python whitespace. -/
def dropPySpace : List Char → List Char
  | [] => []
  | c :: rest => if isPySpace c then dropPySpace rest else c :: rest

/-- Python `s.strip()`. -/
def pyStripStr (s : String) : String :=
  String.mk (dropPySpace (dropPySpace s.data.reverse).reverse)

/-- The comprehension `[u.strip() for u in s.split(",") if u.strip()]`. -/
def commaSplitTrim (s : String) : List String :=
  ((splitOnComma s).map pyStripStr).filter (fun t => t ≠ "")

/-- Does `hay` start with `needle`? (On character lists.) -/
def startsWithL : List Char → List Char → Bool
  | [], _ => true
  | _ :: _, [] => false
  | a :: as, b :: bs => a = b && startsWithL as bs

/-- Does `needle` occur contiguously inside `hay`? -/
def containsL (nd : List Char) : List Char → Bool
  | [] => startsWithL nd []
  | c :: rest => startsWithL nd (c :: rest) || containsL nd rest

/-- Does the message `hay` mention the text `needle`? -/
def mentionsStr (needle hay : String) : Bool :=
  containsL needle.data hay.data

/-- The Python truthiness of a remote error component (`if err:`). -/
def errTruthy : Option String → Bool
  | some s => s ≠ ""
  | none => false

-- ===========================================================================
-- Remote interaction model
-- ===========================================================================

/-- A resource already converted by `as_dict()`; the conversion itself
is opaque to every claim, so payloads are carried as plain key/value
rows. -/
abbrev Dict := List (String × String)

/-- A query-parameter value (string, int or bool, as the tools put
them into `query_params`). -/
inductive QVal where
  | qs (v : String)
  | qi (n : Int)
  | qb (v : Bool)

abbrev QueryParams := List (String × QVal)

/-- One remote operation invocation, as issued through the resolved
client handle.  `query_params` passed as an empty list stands for the
`None` the code sends when no filter was set. -/
inductive RemoteCall where
  | listNetworkServices (query_params : QueryParams)
  | getNetworkService (service_id : String)
  | addNetworkService (ports : List JVal) (name : String) (description : Option String)
  | updateNetworkService (service_id : String) (ports : Option (List JVal))
      (name : String) (description : Option String)
  | deleteNetworkService (service_id : String)
  | deleteNetworkSvcGroup (group_id : String)
  | listNetworkApps (query_params : QueryParams)
  | listDevices (query_params : QueryParams)
  | getUrlCategory (category_id : String)
  | deleteUrlCategory (category_id : String)
  | deleteUrlsFromCategory (category_id : String) (configured_name : String)
      (urls : List String)
  | listAvailableActions (rule_type : String) (cloud_apps : List String)

/-- Failure modes of a tool invocation: Python `ValueError`
(validation), the generic `Exception` wrapping a remote error, and a
Python-level `TypeError`/`AttributeError` fault on input shapes the
code never guards against. -/
inductive Err where
  | invalid (msg : String)
  | ex (msg : String)
  | pyFault (msg : String)

/-- A parameter declared `Union[List, str]`. -/
inductive ListOrStr where
  | fromList (xs : List JVal)
  | fromStr (s : String)

/-- Python truthiness of a `Union[List, str]` argument. -/
def lsTruthy : ListOrStr → Bool
  | .fromList xs => ¬xs.isEmpty
  | .fromStr s => s ≠ ""

/-- Python truthiness of an optional `Union[List, str]` argument. -/
def lsOptTruthy : Option ListOrStr → Bool
  | some v => lsTruthy v
  | none => false

-- ===========================================================================
-- Confirmation gate (zscaler_mcp.common.elicitation — not under src/)
-- ===========================================================================

/-- Modelled from the spec: `zscaler_mcp.common.elicitation.extract_confirmed_from_kwargs`
is code of this repository that is not under src/.  The spec describes
the confirmation state as "a boolean, extracted from a side-channel
JSON blob attached to destructive calls"; the blob is modelled as the
optional boolean it carries, absent meaning unconfirmed. -/
def extract_confirmed_from_kwargs (kwargs : Option Bool) : Bool :=
  kwargs.getD false

/-- The human-readable pending-action description the gate returns for
an unconfirmed destructive call. -/
def pending_description (operation_name : String) : String :=
  "Action \x27" ++ operation_name ++
    "\x27 was not performed. Re-invoke with confirmed=true to proceed."

/-- Modelled from the spec: `zscaler_mcp.common.elicitation.check_confirmation`
is code of this repository that is not under src/.  Per the spec: "If
`confirmed` is false, return a non-null description … If `confirmed`
is true, return null/none, allowing the tool to proceed." -/
def check_confirmation (operation_name : String) (confirmed : Bool)
    (_context : List (String × String)) : Option String :=
  if confirmed then none else some (pending_description operation_name)

-- ===========================================================================
-- src/zscaler_mcp/tools/zia/network_services.py
-- ===========================================================================

/-- The `valid_protocols` set of `zia_list_network_services`
(membership only; CPython set iteration order is an implementation
detail, the joined display below fixes the source-literal order). -/
def valid_protocols : List String := ["ICMP", "TCP", "UDP", "GRE", "ESP", "OTHER"]

/-- The message of the protocol-filter validation error, naming the
offending value and the supported set. -/
def invalid_protocol_msg (protocol : String) : String :=
  "Invalid protocol: " ++ protocol ++ ". Supported values: " ++
    String.intercalate ", " valid_protocols

/-- Query-parameter assembly of `zia_list_network_services` (lines
112-121): `search` and `locale` are forwarded when truthy, `protocol`
is validated case-insensitively against `valid_protocols`. -/
def listNetworkServicesQp (search protocol locale : Option String) :
    Except Err QueryParams := do
  let qp : QueryParams := if pyTruthy search then [("search", QVal.qs (search.getD ""))] else []
  let qp ← match protocol with
    | some p =>
      if p ≠ "" then
        if (valid_protocols.contains (pyUpper p) : Bool) then
          pure (qp ++ [("protocol", QVal.qs (pyUpper p))])
        else throw (Err.invalid (invalid_protocol_msg p))
      else pure qp
    | none => pure qp
  let qp := if pyTruthy locale then qp ++ [("locale", QVal.qs (locale.getD ""))] else qp
  return qp

/-- Embedding of `zia_list_network_services`; `payload` and `err` are the remote
triple's components for the single list call, `as_dict` conversion is
the identity on the already-plain `Dict` rows. -/
def zia_list_network_services (search protocol locale : Option String)
    (payload : List Dict) (err : Option String) :
    Except Err (List Dict) × List RemoteCall :=
  match listNetworkServicesQp search protocol locale with
  | .error e => (.error e, [])
  | .ok qp =>
    if errTruthy err then
      (.error (.ex ("Failed to list network services: " ++ (err.getD ""))),
       [RemoteCall.listNetworkServices qp])
    else (.ok payload, [RemoteCall.listNetworkServices qp])

/-- Embedding of `zia_get_network_service`; `service_id` carries the string form of
the `Union[int, str]` identifier. -/
def zia_get_network_service (service_id : String)
    (payload : Dict) (err : Option String) :
    Except Err Dict × List RemoteCall :=
  if service_id = "" then (.error (.invalid "service_id is required"), [])
  else if errTruthy err then
    (.error (.ex ("Failed to retrieve network service " ++ service_id ++ ": " ++ (err.getD ""))),
     [RemoteCall.getNetworkService service_id])
  else (.ok payload, [RemoteCall.getNetworkService service_id])

/-- Embedding of `_parse_ports` (lines 177-211): `None` passes through, strings are
JSON-decoded (decode failure is a `ValueError`), the result must be a
list, and inner lists become tuples (a no-op in this model, which
keeps entries as `JVal`). -/
def _parse_ports : Option ListOrStr → Except Err (Option (List JVal))
  | none => .ok none
  | some inp =>
    let decoded : Except Err JVal :=
      match inp with
      | .fromStr s =>
        match jsonDecode s with
        | some v => .ok v
        | none => .error (.invalid ("Invalid JSON for ports: " ++ jsonErrNote))
      | .fromList xs => .ok (JVal.arr xs)
    match decoded with
    | .error e => .error e
    | .ok (JVal.arr xs) => .ok (some xs)
    | .ok _ => .error (.invalid "ports must be a list of port tuples")

/-- Python `len(x)` on a port entry: defined for tuples (former lists)
and strings, a `TypeError` otherwise. -/
def pyLen : JVal → Option Nat
  | .arr xs => some xs.length
  | .s t => some t.length
  | _ => none

/-- Python `x[k]` on a port entry: tuple indexing, or the one-character
string for string entries (in-bounds by the preceding length check). -/
def pyIndex : JVal → Nat → JVal
  | .arr xs, k => xs.getD k (JVal.s "")
  | .s t, k => JVal.s (String.singleton (t.data.getD k ' '))
  | v, _ => v

/-- Python `direction in ("src", "dest")`: only equal string values
compare equal. -/
def isValidDirection : JVal → Bool
  | .s t => t = "src" ∨ t = "dest"
  | _ => false

/-- The validation applied to one port entry by
`zia_create_network_service` (lines 294-304) and
`zia_update_network_service` (lines 383-393): length at least 3,
direction in `{src, dest}`, protocol case-insensitively in
`{tcp, udp}`.  Entries Python would crash on (no `len`, protocol
without `.lower()`) map to `Err.pyFault`, which likewise aborts before
any remote call. -/
def port_tuple_error (t : JVal) : Option Err :=
  match pyLen t with
  | none => some (.pyFault "object of type int has no len()")
  | some l =>
    if l < 3 then
      some (.invalid ("Invalid port tuple " ++ pyStrPortEntry t ++
        ". Format: (\x27src\x27|\x27dest\x27, \x27tcp\x27|\x27udp\x27, \x27start_port\x27, \x27end_port\x27)"))
    else
      let direction := pyIndex t 0
      let protocol := pyIndex t 1
      if isValidDirection direction then
        match protocol with
        | JVal.s p =>
          if pyLower p = "tcp" ∨ pyLower p = "udp" then none
          else some (.invalid ("Invalid protocol \x27" ++ p ++ "\x27. Must be \x27tcp\x27 or \x27udp\x27."))
        | _ => some (.pyFault "object has no attribute lower")
      else
        some (.invalid ("Invalid direction \x27" ++ pyStr direction ++ "\x27. Must be \x27src\x27 or \x27dest\x27."))

/-- The `for port_tuple in parsed_ports` validation loop: first
violation wins. -/
def validate_ports : List JVal → Option Err
  | [] => none
  | t :: rest =>
    match port_tuple_error t with
    | some e => some e
    | none => validate_ports rest

/-- The `description` keyword is only attached when truthy
(`if description:`, line 310). -/
def descIfTruthy (description : Option String) : Option String :=
  match description with
  | some d => if d ≠ "" then some d else none
  | none => none

/-- Embedding of `zia_create_network_service` (lines 214-316). -/
def zia_create_network_service (name : String) (ports : ListOrStr)
    (description : Option String) (payload : Dict) (err : Option String) :
    Except Err Dict × List RemoteCall :=
  if name = "" then (.error (.invalid "name is required"), [])
  else if ¬lsTruthy ports then
    (.error (.invalid "ports is required - must specify at least one port definition"), [])
  else
    match _parse_ports (some ports) with
    | .error e => (.error e, [])
    | .ok parsed =>
      match parsed with
      | none => (.error (.invalid "ports must contain at least one port definition"), [])
      | some xs =>
        if xs.isEmpty then
          (.error (.invalid "ports must contain at least one port definition"), [])
        else
          match validate_ports xs with
          | some e => (.error e, [])
          | none =>
            if errTruthy err then
              (.error (.ex ("Failed to create network service: " ++ (err.getD ""))),
               [RemoteCall.addNetworkService xs name (descIfTruthy description)])
            else
              (.ok payload, [RemoteCall.addNetworkService xs name (descIfTruthy description)])

/-- Embedding of `zia_update_network_service` (lines 319-409); `description` is
forwarded whenever it is not `None` (line 399), unlike create. -/
def zia_update_network_service (service_id name : String)
    (ports : Option ListOrStr) (description : Option String)
    (payload : Dict) (err : Option String) :
    Except Err Dict × List RemoteCall :=
  if service_id = "" then (.error (.invalid "service_id is required"), [])
  else if name = "" then (.error (.invalid "name is required for update"), [])
  else
    match (if lsOptTruthy ports then _parse_ports ports else .ok none) with
    | .error e => (.error e, [])
    | .ok parsed =>
      let validation :=
        match parsed with
        | some xs => if xs.isEmpty then none else validate_ports xs
        | none => none
      match validation with
      | some e => (.error e, [])
      | none =>
        if errTruthy err then
          (.error (.ex ("Failed to update network service " ++ service_id ++ ": " ++ (err.getD ""))),
           [RemoteCall.updateNetworkService service_id parsed name description])
        else
          (.ok payload, [RemoteCall.updateNetworkService service_id parsed name description])

/-- Result of a confirmation-gated delete tool: either the pending
description returned without acting, or the success message after the
remote call. -/
inductive DeleteOutcome where
  | pending (description : String)
  | success (message : String)

/-- Embedding of `zia_delete_network_service` (lines 412-473): the confirmation
gate runs first (lines 454-462), then the required-field check, then
the single remote delete. -/
def zia_delete_network_service (service_id : String) (kwargs : Option Bool)
    (err : Option String) :
    Except Err DeleteOutcome × List RemoteCall :=
  let confirmed := extract_confirmed_from_kwargs kwargs
  match check_confirmation "zia_delete_network_service" confirmed [] with
  | some msg => (.ok (.pending msg), [])
  | none =>
    if service_id = "" then (.error (.invalid "service_id is required for delete"), [])
    else if errTruthy err then
      (.error (.ex ("Failed to delete network service " ++ service_id ++ ": " ++ (err.getD ""))),
       [RemoteCall.deleteNetworkService service_id])
    else
      (.ok (.success ("Network service " ++ service_id ++ " deleted successfully")),
       [RemoteCall.deleteNetworkService service_id])

-- ===========================================================================
-- src/zscaler_mcp/tools/zia/network_services_group.py
-- ===========================================================================

/-- Embedding of `_parse_service_ids` (lines 166-192): `None` passes through,
strings are JSON-decoded (decode failure is a `ValueError`, with no
comma fallback), the result must be a list, and every element is
coerced to a string with `str(sid)`. -/
def _parse_service_ids : Option ListOrStr → Except Err (Option (List String))
  | none => .ok none
  | some inp =>
    let decoded : Except Err JVal :=
      match inp with
      | .fromStr s =>
        match jsonDecode s with
        | some v => .ok v
        | none => .error (.invalid ("Invalid JSON for service_ids: " ++ jsonErrNote))
      | .fromList xs => .ok (JVal.arr xs)
    match decoded with
    | .error e => .error e
    | .ok (JVal.arr xs) => .ok (some (xs.map pyStr))
    | .ok _ => .error (.invalid "service_ids must be a list of network service IDs")

/-- Embedding of `zia_delete_network_svc_group` (lines 384-447): confirmation gate
first, then the required-field check, then the single remote delete. -/
def zia_delete_network_svc_group (group_id : String) (kwargs : Option Bool)
    (err : Option String) :
    Except Err DeleteOutcome × List RemoteCall :=
  let confirmed := extract_confirmed_from_kwargs kwargs
  match check_confirmation "zia_delete_network_svc_group" confirmed [] with
  | some msg => (.ok (.pending msg), [])
  | none =>
    if group_id = "" then (.error (.invalid "group_id is required for delete"), [])
    else if errTruthy err then
      (.error (.ex ("Failed to delete network service group " ++ group_id ++ ": " ++ (err.getD ""))),
       [RemoteCall.deleteNetworkSvcGroup group_id])
    else
      (.ok (.success ("Network service group " ++ group_id ++ " deleted successfully")),
       [RemoteCall.deleteNetworkSvcGroup group_id])

-- ===========================================================================
-- src/zscaler_mcp/tools/zia/url_categories.py
-- ===========================================================================

/-- The `urls` parameter of `zia_url_lookup`, declared
`Union[List[str], str]`. -/
inductive UrlsInput where
  | fromList (xs : List String)
  | fromStr (s : String)

/-- Elements of a decoded urls array, specialized to the `List[str]`
element type the tool declares. -/
def asStrings : List JVal → Except Err (List String)
  | [] => .ok []
  | JVal.s t :: rest =>
    match asStrings rest with
    | .ok ts => .ok (t :: ts)
    | .error e => .error e
  | _ :: _ => .error (.pyFault "non-string URL element")

/-- The urls normalization of `zia_url_lookup` (lines 81-92): strings
are JSON-decoded, decode failure falls back to comma-splitting with
trimming, the result must be a non-empty list. -/
def normalize_urls (input : UrlsInput) : Except Err (List String) :=
  let step : Except Err (List String) :=
    match input with
    | .fromList xs => .ok xs
    | .fromStr s =>
      match jsonDecode s with
      | none => .ok (commaSplitTrim s)
      | some (JVal.arr es) => asStrings es
      | some _ => .error (.invalid "urls must be a list of URL strings or a JSON string")
  match step with
  | .error e => .error e
  | .ok xs => if xs.isEmpty then .error (.invalid "urls cannot be empty") else .ok xs

/-- One observable event of the batched remote lookup: a remote batch
call, or the pacing sleep between two consecutive batches. -/
inductive LookupEv where
  | call (batch : List String)
  | sleep

/-- Split a list into consecutive batches of at most `100` elements,
fuel-indexed so it reduces definitionally (`fuel` bounds the number of
batches; `xs.length` always suffices). -/
def toBatchesGo {α : Type} : Nat → List α → List (List α)
  | _, [] => []
  | 0, _ :: _ => []
  | Nat.succ fuel, x :: rest => (x :: rest).take 100 :: toBatchesGo fuel ((x :: rest).drop 100)

/-- The consecutive 100-element batches of a url list. -/
def toBatches {α : Type} (xs : List α) : List (List α) :=
  toBatchesGo xs.length xs

/-- The event trace of issuing the given batches sequentially with a
pacing sleep between consecutive batches. -/
def batchEvents : List (List String) → List LookupEv
  | [] => []
  | [b] => [LookupEv.call b]
  | b :: b2 :: rest => LookupEv.call b :: LookupEv.sleep :: batchEvents (b2 :: rest)

/-- Modelled from the spec: the SDK `lookup` operation invoked at
url_categories.py line 97 is external to src/ (its batching loop lives
in the zscaler SDK, and the tool docstring at lines 43-49 together
with the spec describe it): "a bounded sequence of calls batched at
100 items per batch with a pacing delay between batches to respect the
remote API's rate limits; batches are issued sequentially, not
concurrently".  `remote` is the per-batch remote endpoint; the
returned event list is the sequential call/sleep trace. -/
def sdk_lookup {α : Type} (remote : List String → List α) (urls : List String) :
    List α × List LookupEv :=
  (((toBatches urls).map remote).flatten, batchEvents (toBatches urls))

/-- Embedding of `zia_url_lookup` (lines 26-110): normalization per the source,
then the (spec-modelled) batched SDK lookup; the per-entry `as_dict`
normalization of results is the identity here, and the error branch of
the lookup triple is not exercised by any claim (a successful `remote`
is assumed). -/
def zia_url_lookup {α : Type} (input : UrlsInput)
    (remote : List String → List α) :
    Except Err (List α) × List LookupEv :=
  match normalize_urls input with
  | .error e => (.error e, [])
  | .ok urls =>
    let r := sdk_lookup remote urls
    (.ok r.1, r.2)

/-- The batches of the remote-call events of a lookup trace, in
order. -/
def callBatches : List LookupEv → List (List String)
  | [] => []
  | LookupEv.call b :: rest => b :: callBatches rest
  | LookupEv.sleep :: rest => callBatches rest

/-- The number of pacing sleeps in a lookup trace. -/
def sleepCount : List LookupEv → Nat
  | [] => 0
  | LookupEv.call _ :: rest => sleepCount rest
  | LookupEv.sleep :: rest => sleepCount rest + 1

/-- Embedding of `zia_get_url_category` (lines 113-128): the remote error is
wrapped as `"Read failed: {err}"`, naming the action only. -/
def zia_get_url_category (category_id : String)
    (payload : Dict) (err : Option String) :
    Except Err Dict × List RemoteCall :=
  if category_id = "" then (.error (.invalid "category_id is required"), [])
  else if errTruthy err then
    (.error (.ex ("Read failed: " ++ (err.getD ""))), [RemoteCall.getUrlCategory category_id])
  else (.ok payload, [RemoteCall.getUrlCategory category_id])

/-- Result of `zia_remove_urls_from_category`: the pending description
or the updated category mapping. -/
inductive RemoveUrlsOutcome where
  | pending (description : String)
  | updated (result : Dict)

/-- Embedding of `zia_remove_urls_from_category` (lines 245-282): confirmation gate
first, then the joint required-field check, then the single remote
removal call. -/
def zia_remove_urls_from_category (category_id configured_name : String)
    (urls : List String) (kwargs : Option Bool)
    (payload : Dict) (err : Option String) :
    Except Err RemoveUrlsOutcome × List RemoteCall :=
  let confirmed := extract_confirmed_from_kwargs kwargs
  match check_confirmation "zia_remove_urls_from_category" confirmed [] with
  | some msg => (.ok (.pending msg), [])
  | none =>
    if category_id = "" ∨ configured_name = "" ∨ urls.isEmpty then
      (.error (.invalid "category_id, configured_name, and urls are required for removing URLs"), [])
    else if errTruthy err then
      (.error (.ex ("Remove URLs failed: " ++ (err.getD ""))),
       [RemoteCall.deleteUrlsFromCategory category_id configured_name urls])
    else
      (.ok (.updated payload),
       [RemoteCall.deleteUrlsFromCategory category_id configured_name urls])

/-- Embedding of `zia_delete_url_category` (lines 285-315): confirmation gate
first, then the required-field check, then the single remote delete. -/
def zia_delete_url_category (category_id : String) (kwargs : Option Bool)
    (err : Option String) :
    Except Err DeleteOutcome × List RemoteCall :=
  let confirmed := extract_confirmed_from_kwargs kwargs
  match check_confirmation "zia_delete_url_category" confirmed [] with
  | some msg => (.ok (.pending msg), [])
  | none =>
    if category_id = "" then (.error (.invalid "category_id is required for deletion"), [])
    else if errTruthy err then
      (.error (.ex ("Delete failed: " ++ (err.getD ""))), [RemoteCall.deleteUrlCategory category_id])
    else
      (.ok (.success ("Deleted URL category " ++ category_id)),
       [RemoteCall.deleteUrlCategory category_id])

-- ===========================================================================
-- src/zscaler_mcp/tools/zia/network_apps.py
-- ===========================================================================

/-- The `valid_locales` set of `zia_list_network_apps`. -/
def valid_locales : List String := ["en-US", "de-DE", "es-ES", "fr-FR", "ja-JP", "zh-CN"]

/-- The message of the locale validation error: the supported set is
displayed through `sorted(valid_locales)`. -/
def invalid_locale_msg (locale : String) : String :=
  "Invalid locale: " ++ locale ++ ". Supported values: " ++
    String.intercalate ", " ["de-DE", "en-US", "es-ES", "fr-FR", "ja-JP", "zh-CN"]

/-- Embedding of `zia_list_network_apps` (lines 46-141): `search` forwarded when
truthy, `locale` validated against the closed set before the single
remote list call. -/
def zia_list_network_apps (search locale : Option String)
    (payload : List Dict) (err : Option String) :
    Except Err (List Dict) × List RemoteCall :=
  let qp : QueryParams := if pyTruthy search then [("search", QVal.qs (search.getD ""))] else []
  let qpOrErr : Except Err QueryParams :=
    match locale with
    | some l =>
      if l ≠ "" then
        if (valid_locales.contains l : Bool) then .ok (qp ++ [("locale", QVal.qs l)])
        else .error (.invalid (invalid_locale_msg l))
      else .ok qp
    | none => .ok qp
  match qpOrErr with
  | .error e => (.error e, [])
  | .ok qp =>
    if errTruthy err then
      (.error (.ex ("Failed to list network applications: " ++ (err.getD ""))),
       [RemoteCall.listNetworkApps qp])
    else (.ok payload, [RemoteCall.listNetworkApps qp])

-- ===========================================================================
-- src/zscaler_mcp/tools/zia/device_management.py
-- ===========================================================================

/-- The `user_ids` handling of `zia_list_devices` (lines 250-260):
strings are JSON-decoded (decode failure is a `ValueError`, with no
comma fallback), the value must be a list, and the elements are joined
with commas after `str(uid)` coercion. -/
def parse_user_ids : Option ListOrStr → Except Err (Option String)
  | none => .ok none
  | some (.fromStr s) =>
    match jsonDecode s with
    | none => .error (.invalid ("Invalid JSON for user_ids: " ++ jsonErrNote))
    | some (JVal.arr xs) => .ok (some (String.intercalate "," (xs.map pyStr)))
    | some _ => .error (.invalid "user_ids must be a list of user ID strings")
  | some (.fromList xs) => .ok (some (String.intercalate "," (xs.map pyStr)))

/-- The `page_size` step of the query assembly (lines 270-273). -/
def pageSizeStep (qp : QueryParams) (page_size : Option Int) : Except Err QueryParams :=
  match page_size with
  | some ps =>
    if ps < 1 ∨ 1000 < ps then .error (.invalid "page_size must be between 1 and 1000")
    else .ok (qp ++ [("pageSize", QVal.qi ps)])
  | none => .ok qp

/-- Query-parameter assembly of `zia_list_devices` (lines 245-273), in
source order: `name`, `user_ids`, `include_all`, `page`, `page_size`. -/
def listDevicesQp (name : Option String) (user_ids : Option ListOrStr)
    (include_all : Option Bool) (page page_size : Option Int) :
    Except Err QueryParams :=
  let qp : QueryParams := if pyTruthy name then [("name", QVal.qs (name.getD ""))] else []
  match parse_user_ids user_ids with
  | .error e => .error e
  | .ok uj =>
    let qp := match uj with
      | some j => qp ++ [("userIds", QVal.qs j)]
      | none => qp
    let qp := match include_all with
      | some b => qp ++ [("includeAll", QVal.qb b)]
      | none => qp
    match page with
    | some p =>
      if p < 1 then .error (.invalid "page must be 1 or greater")
      else pageSizeStep (qp ++ [("page", QVal.qi p)]) page_size
    | none => pageSizeStep qp page_size

/-- Embedding of `zia_list_devices` (lines 139-278). -/
def zia_list_devices (name : Option String) (user_ids : Option ListOrStr)
    (include_all : Option Bool) (page page_size : Option Int)
    (payload : List Dict) (err : Option String) :
    Except Err (List Dict) × List RemoteCall :=
  match listDevicesQp name user_ids include_all page page_size with
  | .error e => (.error e, [])
  | .ok qp =>
    if errTruthy err then
      (.error (.ex ("Failed to list devices: " ++ (err.getD ""))), [RemoteCall.listDevices qp])
    else (.ok payload, [RemoteCall.listDevices qp])

-- ===========================================================================
-- src/zscaler_mcp/tools/zia/cloud_app_control.py
-- ===========================================================================

/-- The cloud_apps normalization of `zia_list_cloud_app_control_actions`
(lines 127-138): JSON decode with comma-split fallback, list shape
check, non-empty check. -/
def normalize_cloud_apps (input : UrlsInput) : Except Err (List String) :=
  let step : Except Err (List String) :=
    match input with
    | .fromList xs => .ok xs
    | .fromStr s =>
      match jsonDecode s with
      | none => .ok (commaSplitTrim s)
      | some (JVal.arr es) => asStrings es
      | some _ => .error (.invalid "cloud_apps must be a list of cloud application names or a JSON string")
  match step with
  | .error e => .error e
  | .ok xs => if xs.isEmpty then .error (.invalid "cloud_apps cannot be empty") else .ok xs

/-- Embedding of `zia_list_cloud_app_control_actions` (lines 39-147). -/
def zia_list_cloud_app_control_actions (rule_type : String) (cloud_apps : UrlsInput)
    (payload : List String) (err : Option String) :
    Except Err (List String) × List RemoteCall :=
  match normalize_cloud_apps cloud_apps with
  | .error e => (.error e, [])
  | .ok apps =>
    if errTruthy err then
      (.error (.ex ("Failed to list available Cloud App Control actions: " ++ (err.getD ""))),
       [RemoteCall.listAvailableActions rule_type apps])
    else (.ok payload, [RemoteCall.listAvailableActions rule_type apps])

-- ===========================================================================
-- Helper lemmas
-- ===========================================================================

/-- With enough fuel, the batches of a list concatenate back to the
list, in order. -/
theorem toBatchesGo_flatten {α : Type} :
    ∀ (fuel : Nat) (xs : List α), xs.length ≤ fuel →
      (toBatchesGo fuel xs).flatten = xs := by
  intro fuel
  induction fuel with
  | zero =>
    intro xs h
    have : xs = [] := List.length_eq_zero.mp (Nat.le_zero.mp h)
    subst this
    rfl
  | succ fuel ih =>
    intro xs h
    match xs with
    | [] => rfl
    | x :: rest =>
      have hdrop : ((x :: rest).drop 100).length ≤ fuel := by
        simp only [List.length_drop, List.length_cons] at h ⊢
        omega
      simp only [toBatchesGo, List.flatten_cons, ih _ hdrop, List.take_append_drop]

/-- With enough fuel, the number of batches is `⌈length / 100⌉`. -/
theorem toBatchesGo_length {α : Type} :
    ∀ (fuel : Nat) (xs : List α), xs.length ≤ fuel →
      (toBatchesGo fuel xs).length = (xs.length + 99) / 100 := by
  intro fuel
  induction fuel with
  | zero =>
    intro xs h
    have : xs = [] := List.length_eq_zero.mp (Nat.le_zero.mp h)
    subst this
    simp [toBatchesGo]
  | succ fuel ih =>
    intro xs h
    match xs with
    | [] => simp [toBatchesGo]
    | x :: rest =>
      have hdrop : ((x :: rest).drop 100).length ≤ fuel := by
        simp only [List.length_drop, List.length_cons] at h ⊢
        omega
      simp only [toBatchesGo, List.length_cons, ih _ hdrop, List.length_drop,
        List.length_cons]
      omega

/-- With enough fuel, every batch is non-empty and holds at most 100
elements. -/
theorem toBatchesGo_mem {α : Type} :
    ∀ (fuel : Nat) (xs : List α) (b : List α), xs.length ≤ fuel →
      b ∈ toBatchesGo fuel xs → b ≠ [] ∧ b.length ≤ 100 := by
  intro fuel
  induction fuel with
  | zero =>
    intro xs b h hm
    have : xs = [] := List.length_eq_zero.mp (Nat.le_zero.mp h)
    subst this
    simp [toBatchesGo] at hm
  | succ fuel ih =>
    intro xs b h hm
    match xs with
    | [] => simp [toBatchesGo] at hm
    | x :: rest =>
      simp only [toBatchesGo, List.mem_cons] at hm
      rcases hm with hb | hb
      · subst hb
        constructor
        · intro hempty
          have := congrArg List.length hempty
          simp [List.length_take] at this
        · simp [List.length_take]
      · have hdrop : ((x :: rest).drop 100).length ≤ fuel := by
          simp only [List.length_drop, List.length_cons] at h ⊢
          omega
        exact ih _ b hdrop hb

/-- The batches of a list concatenate back to the list, in order. -/
theorem toBatches_flatten {α : Type} (xs : List α) :
    (toBatches xs).flatten = xs :=
  toBatchesGo_flatten xs.length xs (Nat.le_refl _)

/-- The number of batches is `⌈length / 100⌉`. -/
theorem toBatches_length {α : Type} (xs : List α) :
    (toBatches xs).length = (xs.length + 99) / 100 :=
  toBatchesGo_length xs.length xs (Nat.le_refl _)

/-- Every batch is non-empty and holds at most 100 elements. -/
theorem toBatches_mem {α : Type} (xs : List α) (b : List α)
    (hb : b ∈ toBatches xs) : b ≠ [] ∧ b.length ≤ 100 :=
  toBatchesGo_mem xs.length xs b (Nat.le_refl _) hb

/-- The call events of a batch trace recover exactly the batches, in
order. -/
theorem callBatches_batchEvents : ∀ bs, callBatches (batchEvents bs) = bs
  | [] => rfl
  | [_] => rfl
  | b :: c :: rest => by
    simp only [batchEvents, callBatches]
    exact congrArg (b :: ·) (callBatches_batchEvents (c :: rest))

/-- A batch trace sleeps exactly once between consecutive calls. -/
theorem sleepCount_batchEvents : ∀ bs, sleepCount (batchEvents bs) = bs.length - 1
  | [] => rfl
  | [_] => rfl
  | b :: c :: rest => by
    simp only [batchEvents, sleepCount, sleepCount_batchEvents (c :: rest)]
    simp only [List.length_cons]
    omega

/-- A list starts with itself followed by anything. -/
theorem startsWithL_append_self : ∀ (nd rest : List Char),
    startsWithL nd (nd ++ rest) = true
  | [], _ => rfl
  | a :: as, rest => by
    simp only [List.cons_append, startsWithL, List.append_eq]
    rw [startsWithL_append_self as rest]
    simp

/-- A contiguous occurrence is found wherever it sits. -/
theorem containsL_append : ∀ (l1 nd l2 : List Char),
    containsL nd (l1 ++ (nd ++ l2)) = true
  | [], nd, l2 => by
    match h : nd ++ l2 with
    | [] =>
      have : nd = [] := by
        cases nd with
        | nil => rfl
        | cons a as => simp at h
      subst this
      simp [containsL, startsWithL]
    | c :: rest =>
      simp only [List.nil_append, h, containsL]
      rw [← h, startsWithL_append_self]
      rfl
  | c :: l1, nd, l2 => by
    simp only [List.cons_append, containsL, List.append_eq]
    rw [containsL_append l1 nd l2]
    simp

/-- A message of the form `a ++ x ++ b` mentions `x`. -/
theorem mentionsStr_append (a x b : String) :
    mentionsStr x (a ++ x ++ b) = true := by
  unfold mentionsStr
  have : (a ++ x ++ b).data = a.data ++ (x.data ++ b.data) := by
    simp [String.data_append]
  rw [this]
  exact containsL_append a.data x.data b.data

/-- A message of the form `a ++ x` mentions `x`. -/
theorem mentionsStr_append_right (a x : String) :
    mentionsStr x (a ++ x) = true := by
  unfold mentionsStr
  have : (a ++ x).data = a.data ++ (x.data ++ []) := by
    simp [String.data_append]
  rw [this]
  exact containsL_append a.data x.data []

/-- If some entry violates the port rule, the validation loop fails
with the error of one of the violating entries. -/
theorem validate_ports_fails : ∀ (xs : List JVal),
    (∃ t ∈ xs, (port_tuple_error t).isSome) →
    ∃ e, validate_ports xs = some e ∧ ∃ t ∈ xs, port_tuple_error t = some e := by
  intro xs
  induction xs with
  | nil => intro h; simp at h
  | cons t rest ih =>
    intro h
    match he : port_tuple_error t with
    | some e =>
      refine ⟨e, ?_, t, List.mem_cons_self t rest, he⟩
      simp [validate_ports, he]
    | none =>
      have hrest : ∃ u ∈ rest, (port_tuple_error u).isSome := by
        rcases h with ⟨u, hu, hbad⟩
        rcases List.mem_cons.mp hu with rfl | hu2
        · rw [he] at hbad; simp at hbad
        · exact ⟨u, hu2, hbad⟩
      rcases ih hrest with ⟨e, hv, u, hu, hue⟩
      refine ⟨e, ?_, u, List.mem_cons_of_mem t hu, hue⟩
      simp [validate_ports, he, hv]

/-- C1: for every call to `zia_url_lookup` whose normalized urls list
has more than 100 elements, the tool issues a bounded sequence of
sequential remote lookup calls batched at 100 items per batch, with a
pacing sleep between consecutive batches, and returns the batch
results concatenated in input order. -/
theorem claim_C1 {α : Type} (urls : List String) (f : String → α)
    (h : 100 < urls.length) :
    zia_url_lookup (UrlsInput.fromList urls) (fun b => b.map f)
        = (.ok (urls.map f), batchEvents (toBatches urls)) ∧
    callBatches (batchEvents (toBatches urls)) = toBatches urls ∧
    (toBatches urls).flatten = urls ∧
    (toBatches urls).length = (urls.length + 99) / 100 ∧
    2 ≤ (toBatches urls).length ∧
    (∀ b ∈ toBatches urls, b ≠ [] ∧ b.length ≤ 100) ∧
    sleepCount (batchEvents (toBatches urls)) = (toBatches urls).length - 1 := by
  have hne : urls.isEmpty = false := by
    cases urls with
    | nil => simp at h
    | cons a as => rfl
  refine ⟨?_, callBatches_batchEvents _, toBatches_flatten urls, toBatches_length urls,
    ?_, fun b hb => toBatches_mem urls b hb, sleepCount_batchEvents _⟩
  · unfold zia_url_lookup normalize_urls sdk_lookup
    simp only [hne, Bool.false_eq_true, if_false]
    rw [← List.map_flatten, toBatches_flatten]
  · rw [toBatches_length]
    omega

set_option maxRecDepth 4000 in
/-- Witness for C1: 150 URLs produce exactly two remote batch calls of
100 and 50 items, concatenated in input order. -/
theorem claim_C1_witness :
    100 < (List.replicate 150 "a.com").length ∧
    zia_url_lookup (UrlsInput.fromList (List.replicate 150 "a.com"))
        (fun b => b.map String.length)
      = (.ok ((List.replicate 150 "a.com").map String.length),
         batchEvents (toBatches (List.replicate 150 "a.com"))) ∧
    (toBatches (List.replicate 150 "a.com")).map List.length = [100, 50] :=
  ⟨by simp, (claim_C1 (List.replicate 150 "a.com") String.length (by simp)).1, by rfl⟩

/-- The pending description is never the empty string. -/
theorem pending_description_ne_empty (op : String) : pending_description op ≠ "" := by
  intro hc
  have hlen := congrArg String.length hc
  simp only [pending_description, String.length_append] at hlen
  have h7 : (0 : Nat) < "Action \x27".length := by decide
  have h0 : ("" : String).length = 0 := rfl
  omega

/-- C2: for every destructive tool, invoking with `confirmed` absent
or false returns the non-null pending description and issues zero
remote calls; invoking with `confirmed=true` and a valid target issues
exactly one remote delete call. -/
theorem claim_C2 :
    (∀ sid kw err, extract_confirmed_from_kwargs kw = false →
        zia_delete_network_service sid kw err
          = (.ok (.pending (pending_description "zia_delete_network_service")), [])) ∧
    (∀ sid kw err, extract_confirmed_from_kwargs kw = true → sid ≠ "" →
        (zia_delete_network_service sid kw err).2
          = [RemoteCall.deleteNetworkService sid]) ∧
    (∀ gid kw err, extract_confirmed_from_kwargs kw = false →
        zia_delete_network_svc_group gid kw err
          = (.ok (.pending (pending_description "zia_delete_network_svc_group")), [])) ∧
    (∀ gid kw err, extract_confirmed_from_kwargs kw = true → gid ≠ "" →
        (zia_delete_network_svc_group gid kw err).2
          = [RemoteCall.deleteNetworkSvcGroup gid]) ∧
    (∀ cid kw err, extract_confirmed_from_kwargs kw = false →
        zia_delete_url_category cid kw err
          = (.ok (.pending (pending_description "zia_delete_url_category")), [])) ∧
    (∀ cid kw err, extract_confirmed_from_kwargs kw = true → cid ≠ "" →
        (zia_delete_url_category cid kw err).2
          = [RemoteCall.deleteUrlCategory cid]) ∧
    (∀ cid cn urls kw payload err, extract_confirmed_from_kwargs kw = false →
        zia_remove_urls_from_category cid cn urls kw payload err
          = (.ok (.pending (pending_description "zia_remove_urls_from_category")), [])) ∧
    (∀ cid cn urls kw payload err, extract_confirmed_from_kwargs kw = true →
        cid ≠ "" → cn ≠ "" → urls ≠ [] →
        (zia_remove_urls_from_category cid cn urls kw payload err).2
          = [RemoteCall.deleteUrlsFromCategory cid cn urls]) ∧
    (∀ op, pending_description op ≠ "") := by
  refine ⟨?_, ?_, ?_, ?_, ?_, ?_, ?_, ?_, pending_description_ne_empty⟩
  · intro sid kw err h
    simp [zia_delete_network_service, check_confirmation, h]
  · intro sid kw err h hs
    simp only [zia_delete_network_service, check_confirmation, h, if_true]
    simp [hs]
    split <;> rfl
  · intro gid kw err h
    simp [zia_delete_network_svc_group, check_confirmation, h]
  · intro gid kw err h hg
    simp only [zia_delete_network_svc_group, check_confirmation, h, if_true]
    simp [hg]
    split <;> rfl
  · intro cid kw err h
    simp [zia_delete_url_category, check_confirmation, h]
  · intro cid kw err h hc
    simp only [zia_delete_url_category, check_confirmation, h, if_true]
    simp [hc]
    split <;> rfl
  · intro cid cn urls kw payload err h
    simp [zia_remove_urls_from_category, check_confirmation, h]
  · intro cid cn urls kw payload err h hc hn hu
    simp only [zia_remove_urls_from_category, check_confirmation, h, if_true]
    have hcond : ¬(cid = "" ∨ cn = "" ∨ urls.isEmpty = true) := by
      simp [hc, hn, List.isEmpty_iff, hu]
    rw [if_neg hcond]
    split <;> rfl

/-- Witness for C2: concrete unconfirmed and confirmed invocations of
two of the gated tools. -/
theorem claim_C2_witness :
    extract_confirmed_from_kwargs none = false ∧
    zia_delete_network_service "12345" none none
      = (.ok (.pending (pending_description "zia_delete_network_service")), []) ∧
    extract_confirmed_from_kwargs (some true) = true ∧
    (zia_delete_network_service "12345" (some true) none).2
      = [RemoteCall.deleteNetworkService "12345"] ∧
    zia_delete_url_category "CUSTOM_01" (some false) none
      = (.ok (.pending (pending_description "zia_delete_url_category")), []) ∧
    (zia_delete_url_category "CUSTOM_01" (some true) none).2
      = [RemoteCall.deleteUrlCategory "CUSTOM_01"] :=
  ⟨rfl,
   claim_C2.1 "12345" none none rfl,
   rfl,
   claim_C2.2.1 "12345" (some true) none rfl (by decide),
   claim_C2.2.2.2.2.1 "CUSTOM_01" (some false) none rfl,
   claim_C2.2.2.2.2.2.1 "CUSTOM_01" (some true) none rfl (by decide)⟩

/-- C3 counterexample: invoking the destructive
`zia_delete_network_service` with an empty required `service_id` and
no confirmation does not fail with a validation error — the
confirmation gate is consulted first and the pending description is
returned. -/
theorem claim_C3_counterexample :
    zia_delete_network_service "" none none
      = (.ok (.pending (pending_description "zia_delete_network_service")), []) ∧
    (zia_delete_network_service "" none none).1
      ≠ .error (.invalid "service_id is required for delete") :=
  ⟨rfl, fun h => Except.noConfusion h⟩

/-- C3 (amended): for non-destructive write-capable tools,
required-field presence is checked first, before normalization and
structural validation; for destructive tools the confirmation gate is
consulted first, and only after it passes are required fields checked
— still before any remote call. -/
theorem claim_C3 :
    (∀ ports d payload err, zia_create_network_service "" ports d payload err
        = (.error (.invalid "name is required"), [])) ∧
    (∀ name ports d payload err, zia_update_network_service "" name ports d payload err
        = (.error (.invalid "service_id is required"), [])) ∧
    (∀ kw err, extract_confirmed_from_kwargs kw = true →
        zia_delete_network_service "" kw err
          = (.error (.invalid "service_id is required for delete"), [])) ∧
    (∀ kw err, extract_confirmed_from_kwargs kw = true →
        zia_delete_network_svc_group "" kw err
          = (.error (.invalid "group_id is required for delete"), [])) ∧
    (∀ kw err, extract_confirmed_from_kwargs kw = true →
        zia_delete_url_category "" kw err
          = (.error (.invalid "category_id is required for deletion"), [])) ∧
    (∀ sid kw err, extract_confirmed_from_kwargs kw = false →
        zia_delete_network_service sid kw err
          = (.ok (.pending (pending_description "zia_delete_network_service")), [])) := by
  refine ⟨fun ports d payload err => rfl, fun name ports d payload err => rfl, ?_, ?_, ?_, ?_⟩
  · intro kw err h
    simp [zia_delete_network_service, check_confirmation, h]
  · intro kw err h
    simp [zia_delete_network_svc_group, check_confirmation, h]
  · intro kw err h
    simp [zia_delete_url_category, check_confirmation, h]
  · intro sid kw err h
    simp [zia_delete_network_service, check_confirmation, h]

/-- Witness for C3 (amended) at concrete inputs: an empty name fails
creation before the malformed ports string is even parsed, and a
confirmed delete with an empty id fails the field check with no remote
call. -/
theorem claim_C3_witness :
    zia_create_network_service "" (ListOrStr.fromStr "not json") none [] none
      = (.error (.invalid "name is required"), []) ∧
    zia_delete_network_service "" (some true) none
      = (.error (.invalid "service_id is required for delete"), []) ∧
    extract_confirmed_from_kwargs (some true) = true :=
  ⟨claim_C3.1 (ListOrStr.fromStr "not json") none [] none,
   claim_C3.2.2.1 (some true) none rfl,
   rfl⟩

/-- On a tuple of strings, the port rule either passes or fails with a
`ValueError` (never a Python-level fault). -/
theorem port_tuple_error_str : ∀ ws : List String,
    port_tuple_error (JVal.arr (ws.map JVal.s)) = none ∨
    ∃ m, port_tuple_error (JVal.arr (ws.map JVal.s)) = some (Err.invalid m) := by
  intro ws
  match ws with
  | [] => exact Or.inr ⟨_, rfl⟩
  | [w0] => exact Or.inr ⟨_, rfl⟩
  | [w0, w1] => exact Or.inr ⟨_, rfl⟩
  | w0 :: w1 :: w2 :: rest =>
    simp only [List.map_cons, port_tuple_error, pyLen, List.length_cons]
    rw [if_neg (by omega)]
    simp only [pyIndex, List.getD_cons_zero, List.getD_cons_succ]
    by_cases hd : isValidDirection (JVal.s w0) = true
    · rw [if_pos hd]
      by_cases hp : pyLower w1 = "tcp" ∨ pyLower w1 = "udp"
      · rw [if_pos hp]
        exact Or.inl rfl
      · rw [if_neg hp]
        exact Or.inr ⟨_, rfl⟩
    · rw [if_neg hd]
      exact Or.inr ⟨_, rfl⟩

/-- C4: for every port-definition tuple passed to
`zia_create_network_service` or `zia_update_network_service`, a tuple
of length < 3, or with a direction outside `{src, dest}`, or with a
protocol (case-insensitively) outside `{tcp, udp}` — i.e. one on which
`port_tuple_error` fires — causes the tool to fail with the validation
error of an offending tuple, and zero remote calls are issued. -/
theorem claim_C4 (name : String) (xs : List JVal) (d : Option String)
    (payload : Dict) (err : Option String)
    (hname : name ≠ "")
    (hstr : ∀ t ∈ xs, ∃ ws : List String, t = JVal.arr (ws.map JVal.s))
    (hbad : ∃ t ∈ xs, (port_tuple_error t).isSome) :
    (∃ m, zia_create_network_service name (ListOrStr.fromList xs) d payload err
            = (.error (.invalid m), []) ∧
          ∃ t ∈ xs, port_tuple_error t = some (Err.invalid m)) ∧
    (∀ sid, sid ≠ "" →
        ∃ m, zia_update_network_service sid name (some (ListOrStr.fromList xs)) d payload err
              = (.error (.invalid m), []) ∧
            ∃ t ∈ xs, port_tuple_error t = some (Err.invalid m)) := by
  obtain ⟨e, hv, t, ht, hte⟩ := validate_ports_fails xs hbad
  obtain ⟨ws, rfl⟩ := hstr t ht
  obtain ⟨m, rfl⟩ : ∃ m, e = Err.invalid m := by
    rcases port_tuple_error_str ws with hnone | ⟨m, hsome⟩
    · rw [hnone] at hte
      exact absurd hte (by simp)
    · rw [hsome] at hte
      injection hte with h
      exact ⟨m, h.symm⟩
  have hne : xs.isEmpty = false := by
    cases xs with
    | nil => simp at ht
    | cons a as => rfl
  have h1 : lsTruthy (ListOrStr.fromList xs) = true := by
    simp [lsTruthy, hne]
  constructor
  · refine ⟨m, ?_, JVal.arr (ws.map JVal.s), ht, hte⟩
    simp [zia_create_network_service, hname, h1, hne, _parse_ports, hv]
  · intro sid hs
    refine ⟨m, ?_, JVal.arr (ws.map JVal.s), ht, hte⟩
    have h2 : lsOptTruthy (some (ListOrStr.fromList xs)) = true := h1
    simp [zia_update_network_service, hs, hname, h2, hne, _parse_ports, hv]

/-- Witness for C4: a tuple with protocol "ftp" makes creation fail by
validation with zero remote calls. -/
theorem claim_C4_witness :
    ("Custom SSH" : String) ≠ "" ∧
    (∃ m, zia_create_network_service "Custom SSH"
            (ListOrStr.fromList [JVal.arr [JVal.s "dest", JVal.s "ftp", JVal.s "21"]])
            none [] none
          = (.error (.invalid m), []) ∧
          ∃ t ∈ [JVal.arr [JVal.s "dest", JVal.s "ftp", JVal.s "21"]],
            port_tuple_error t = some (Err.invalid m)) :=
  ⟨by decide,
   (claim_C4 "Custom SSH" [JVal.arr [JVal.s "dest", JVal.s "ftp", JVal.s "21"]]
      none [] none
      (by decide)
      (by
        intro t ht
        simp only [List.mem_singleton] at ht
        subst ht
        exact ⟨["dest", "ftp", "21"], rfl⟩)
      ⟨JVal.arr [JVal.s "dest", JVal.s "ftp", JVal.s "21"],
       List.mem_singleton.mpr rfl, rfl⟩).1⟩

/-- C5 counterexample: a malformed (non-JSON-decodable) string for the
optional `user_ids` of `zia_list_devices` does not fall back to
comma-splitting — normalization fails with a `ValueError`, even though
a comma-split of the same string exists. -/
theorem claim_C5_counterexample :
    zia_list_devices none (some (ListOrStr.fromStr "12345,67890")) none none none [] none
      = (.error (.invalid ("Invalid JSON for user_ids: " ++ jsonErrNote)), []) ∧
    commaSplitTrim "12345,67890" = ["12345", "67890"] :=
  ⟨rfl, rfl⟩

/-- C5 (amended): malformed JSON strings fall back to comma-splitting
only for `urls` of `zia_url_lookup` and `cloud_apps` of
`zia_list_cloud_app_control_actions`; for `user_ids`, `service_ids`
and the required `ports`, normalization fails with a validation
error. -/
theorem claim_C5 :
    (∀ s, jsonDecode s = none → commaSplitTrim s ≠ [] →
        normalize_urls (UrlsInput.fromStr s) = .ok (commaSplitTrim s)) ∧
    (∀ s, jsonDecode s = none → commaSplitTrim s ≠ [] →
        normalize_cloud_apps (UrlsInput.fromStr s) = .ok (commaSplitTrim s)) ∧
    (∀ s, jsonDecode s = none →
        parse_user_ids (some (ListOrStr.fromStr s))
          = .error (.invalid ("Invalid JSON for user_ids: " ++ jsonErrNote))) ∧
    (∀ s, jsonDecode s = none →
        _parse_service_ids (some (ListOrStr.fromStr s))
          = .error (.invalid ("Invalid JSON for service_ids: " ++ jsonErrNote))) ∧
    (∀ s, jsonDecode s = none →
        _parse_ports (some (ListOrStr.fromStr s))
          = .error (.invalid ("Invalid JSON for ports: " ++ jsonErrNote))) := by
  refine ⟨?_, ?_, ?_, ?_, ?_⟩
  · intro s hdec hne
    have hempty : (commaSplitTrim s).isEmpty = false := by
      cases h : commaSplitTrim s with
      | nil => exact absurd h hne
      | cons a as => rfl
    simp [normalize_urls, hdec, hempty]
  · intro s hdec hne
    have hempty : (commaSplitTrim s).isEmpty = false := by
      cases h : commaSplitTrim s with
      | nil => exact absurd h hne
      | cons a as => rfl
    simp [normalize_cloud_apps, hdec, hempty]
  · intro s hdec
    simp [parse_user_ids, hdec]
  · intro s hdec
    simp [_parse_service_ids, hdec]
  · intro s hdec
    simp [_parse_ports, hdec]

/-- Witness for C5 (amended) at concrete strings: the urls fallback
splits on commas, the service_ids parse fails. -/
theorem claim_C5_witness :
    jsonDecode "a.com, b.com" = none ∧
    normalize_urls (UrlsInput.fromStr "a.com, b.com")
      = .ok (commaSplitTrim "a.com, b.com") ∧
    commaSplitTrim "a.com, b.com" = ["a.com", "b.com"] ∧
    _parse_service_ids (some (ListOrStr.fromStr "svc1,svc2"))
      = .error (.invalid ("Invalid JSON for service_ids: " ++ jsonErrNote)) :=
  ⟨rfl,
   claim_C5.1 "a.com, b.com" rfl (by decide),
   rfl,
   claim_C5.2.2.2.1 "svc1,svc2" rfl⟩

/-- A found occurrence persists under prepending. -/
theorem containsL_mono_left : ∀ (l1 nd l2 : List Char),
    containsL nd l2 = true → containsL nd (l1 ++ l2) = true
  | [], _, _, h => h
  | c :: l1, nd, l2, h => by
    simp only [List.cons_append, containsL, List.append_eq]
    rw [containsL_mono_left l1 nd l2 h]
    simp

/-- A mention inside a suffix is a mention in the whole message. -/
theorem mentionsStr_mono (pre suf x : String) (h : mentionsStr x suf = true) :
    mentionsStr x (pre ++ suf) = true := by
  unfold mentionsStr at h ⊢
  rw [String.data_append]
  exact containsL_mono_left pre.data x.data suf.data h

/-- C6 counterexample: on a remote error, `zia_get_url_category` wraps
it as `"Read failed: {err}"`, which does not name the target
identifier. -/
theorem claim_C6_counterexample :
    zia_get_url_category "12345" [] (some "boom")
      = (.error (.ex ("Read failed: boom")), [RemoteCall.getUrlCategory "12345"]) ∧
    mentionsStr "12345" "Read failed: boom" = false :=
  ⟨rfl, rfl⟩

/-- C6 (amended): on a non-empty remote error component every tool
raises exactly the wrapped remote error, without retrying (the trace
holds the single remote call) and without reinterpreting the message;
the network-service tools name both the attempted action and the
target identifier, while the url-category tools name the action
only. -/
theorem claim_C6 (service_id category_id e : String) (payload : Dict)
    (hs : service_id ≠ "") (hc : category_id ≠ "") (he : e ≠ "") :
    zia_get_network_service service_id payload (some e)
      = (.error (.ex ("Failed to retrieve network service " ++ service_id ++ ": " ++ e)),
         [RemoteCall.getNetworkService service_id]) ∧
    mentionsStr e ("Failed to retrieve network service " ++ service_id ++ ": " ++ e) = true ∧
    mentionsStr service_id
      ("Failed to retrieve network service " ++ service_id ++ ": " ++ e) = true ∧
    zia_get_url_category category_id payload (some e)
      = (.error (.ex ("Read failed: " ++ e)), [RemoteCall.getUrlCategory category_id]) ∧
    mentionsStr e ("Read failed: " ++ e) = true := by
  have herr : errTruthy (some e) = true := by simp [errTruthy, he]
  refine ⟨?_, mentionsStr_append_right _ e, ?_, ?_, mentionsStr_append_right _ e⟩
  · simp [zia_get_network_service, hs, herr]
  · have h := mentionsStr_append "Failed to retrieve network service " service_id (": " ++ e)
    have hshape : "Failed to retrieve network service " ++ service_id ++ (": " ++ e)
        = "Failed to retrieve network service " ++ service_id ++ ": " ++ e := by
      simp [String.append_assoc]
    rwa [hshape] at h
  · simp [zia_get_url_category, hc, herr]

/-- Witness for C6 (amended) at concrete inputs. -/
theorem claim_C6_witness :
    zia_get_network_service "67890" [] (some "boom")
      = (.error (.ex ("Failed to retrieve network service 67890: boom")),
         [RemoteCall.getNetworkService "67890"]) ∧
    mentionsStr "67890" ("Failed to retrieve network service " ++ "67890" ++ ": " ++ "boom")
      = true :=
  ⟨by
    have h := (claim_C6 "67890" "cat" "boom" [] (by decide) (by decide) (by decide)).1
    simpa using h,
   (claim_C6 "67890" "cat" "boom" [] (by decide) (by decide) (by decide)).2.2.1⟩

/-- C7 counterexample: a locale outside the enumerated set passed to
`zia_list_network_services` is not validated — it is forwarded to the
remote list call unchanged and no validation error is raised. -/
theorem claim_C7_counterexample :
    zia_list_network_services none none (some "xx-XX") [] none
      = (.ok [], [RemoteCall.listNetworkServices [("locale", QVal.qs "xx-XX")]]) :=
  rfl

/-- C7 (amended): the protocol filter of `zia_list_network_services`
(compared after upper-casing) and the locale of
`zia_list_network_apps` are validated against their closed sets before
the remote call, raising a validation error that names the set; the
locale of `zia_list_network_services` is forwarded unvalidated. -/
theorem claim_C7 (search locale2 : Option String) (p l : String)
    (payload : List Dict) (err : Option String)
    (hp : p ≠ "") (hpv : valid_protocols.contains (pyUpper p) = false)
    (hl : l ≠ "") (hlv : valid_locales.contains l = false) :
    zia_list_network_services search (some p) locale2 payload err
      = (.error (.invalid (invalid_protocol_msg p)), []) ∧
    (∀ v ∈ valid_protocols, mentionsStr v (invalid_protocol_msg p) = true) ∧
    zia_list_network_apps search (some l) payload err
      = (.error (.invalid (invalid_locale_msg l)), []) ∧
    (∀ v ∈ valid_locales, mentionsStr v (invalid_locale_msg l) = true) := by
  have hpv2 : pyUpper p ∉ valid_protocols := by simpa using hpv
  have hlv2 : l ∉ valid_locales := by simpa using hlv
  refine ⟨?_, ?_, ?_, ?_⟩
  · simp [zia_list_network_services, listNetworkServicesQp, hp, hpv2, Except.map,
      throw, throwThe, MonadExceptOf.throw, Functor.map]
  · intro v hv
    have hmsg : invalid_protocol_msg p
        = ("Invalid protocol: " ++ p) ++
          (". Supported values: " ++ String.intercalate ", " valid_protocols) := by
      simp [invalid_protocol_msg, String.append_assoc]
    rw [hmsg]
    fin_cases hv <;> exact mentionsStr_mono _ _ _ (by rfl)
  · simp [zia_list_network_apps, hl, hlv2]
  · intro v hv
    have hmsg : invalid_locale_msg l
        = ("Invalid locale: " ++ l) ++
          (". Supported values: " ++
            String.intercalate ", " ["de-DE", "en-US", "es-ES", "fr-FR", "ja-JP", "zh-CN"]) := by
      simp [invalid_locale_msg, String.append_assoc]
    rw [hmsg]
    fin_cases hv <;> exact mentionsStr_mono _ _ _ (by rfl)

/-- Witness for C7 (amended) at concrete out-of-set values. -/
theorem claim_C7_witness :
    zia_list_network_services none (some "tcpip") none [] none
      = (.error (.invalid (invalid_protocol_msg "tcpip")), []) ∧
    zia_list_network_apps none (some "en_US") [] none
      = (.error (.invalid (invalid_locale_msg "en_US")), []) ∧
    mentionsStr "TCP" (invalid_protocol_msg "tcpip") = true :=
  ⟨(claim_C7 none none "tcpip" "en_US" [] none (by decide) (by decide)
      (by decide) (by decide)).1,
   (claim_C7 none none "tcpip" "en_US" [] none (by decide) (by decide)
      (by decide) (by decide)).2.2.1,
   (claim_C7 none none "tcpip" "en_US" [] none (by decide) (by decide)
      (by decide) (by decide)).2.1 "TCP" (by decide)⟩

/-- A decoded array of strings specializes losslessly. -/
theorem asStrings_map_s : ∀ xs : List String, asStrings (xs.map JVal.s) = .ok xs := by
  intro xs
  induction xs with
  | nil => rfl
  | cons x rest ih => simp [asStrings, ih]

/-- C8: for every sequence-typed input (ports, service_ids, urls,
cloud_apps), supplying a valid JSON-encoded string and supplying the
equivalent native sequence yield identical normalized output. -/
theorem claim_C8 :
    (∀ s xs, jsonDecode s = some (JVal.arr xs) →
        _parse_ports (some (ListOrStr.fromStr s))
          = _parse_ports (some (ListOrStr.fromList xs))) ∧
    (∀ s xs, jsonDecode s = some (JVal.arr xs) →
        _parse_service_ids (some (ListOrStr.fromStr s))
          = _parse_service_ids (some (ListOrStr.fromList xs))) ∧
    (∀ s xs, jsonDecode s = some (JVal.arr (xs.map JVal.s)) →
        normalize_urls (UrlsInput.fromStr s) = normalize_urls (UrlsInput.fromList xs)) ∧
    (∀ s xs, jsonDecode s = some (JVal.arr (xs.map JVal.s)) →
        normalize_cloud_apps (UrlsInput.fromStr s)
          = normalize_cloud_apps (UrlsInput.fromList xs)) := by
  refine ⟨?_, ?_, ?_, ?_⟩
  · intro s xs h
    simp [_parse_ports, h]
  · intro s xs h
    simp [_parse_service_ids, h]
  · intro s xs h
    simp [normalize_urls, h, asStrings_map_s]
  · intro s xs h
    simp [normalize_cloud_apps, h, asStrings_map_s]

/-- Witness for C8 at concrete JSON strings and their native
equivalents. -/
theorem claim_C8_witness :
    jsonDecode "[[\"dest\", \"tcp\", \"22\"]]"
      = some (JVal.arr [JVal.arr [JVal.s "dest", JVal.s "tcp", JVal.s "22"]]) ∧
    _parse_ports (some (ListOrStr.fromStr "[[\"dest\", \"tcp\", \"22\"]]"))
      = _parse_ports (some (ListOrStr.fromList [JVal.arr [JVal.s "dest", JVal.s "tcp", JVal.s "22"]])) ∧
    _parse_service_ids (some (ListOrStr.fromStr "[\"159143\", \"159144\"]"))
      = _parse_service_ids (some (ListOrStr.fromList [JVal.s "159143", JVal.s "159144"])) ∧
    normalize_urls (UrlsInput.fromStr "[\"a.com\", \"b.com\"]")
      = normalize_urls (UrlsInput.fromList ["a.com", "b.com"]) :=
  ⟨rfl,
   claim_C8.1 "[[\"dest\", \"tcp\", \"22\"]]"
     [JVal.arr [JVal.s "dest", JVal.s "tcp", JVal.s "22"]] rfl,
   claim_C8.2.1 "[\"159143\", \"159144\"]" [JVal.s "159143", JVal.s "159144"] rfl,
   claim_C8.2.2.1 "[\"a.com\", \"b.com\"]" ["a.com", "b.com"] rfl⟩

/-- C9: invoking any destructive tool twice with `confirmed=true` and
the same valid target issues two remote delete calls — there is no
deduplication guard between the confirmation gate and the remote call
— and the second call outcome is determined entirely by the remote
API response to that second call. -/
theorem claim_C9 (sid gid cid cn : String) (urls : List String)
    (r1 r2 : Option String) (payload : Dict)
    (hs : sid ≠ "") (hg : gid ≠ "") (hc : cid ≠ "") (hn : cn ≠ "") (hu : urls ≠ []) :
    (zia_delete_network_service sid (some true) r1).2
        ++ (zia_delete_network_service sid (some true) r2).2
      = [RemoteCall.deleteNetworkService sid, RemoteCall.deleteNetworkService sid] ∧
    (errTruthy r2 = false →
        (zia_delete_network_service sid (some true) r2).1
          = .ok (.success ("Network service " ++ sid ++ " deleted successfully"))) ∧
    (∀ e, r2 = some e → e ≠ "" →
        (zia_delete_network_service sid (some true) r2).1
          = .error (.ex ("Failed to delete network service " ++ sid ++ ": " ++ e))) ∧
    (zia_delete_network_svc_group gid (some true) r1).2
        ++ (zia_delete_network_svc_group gid (some true) r2).2
      = [RemoteCall.deleteNetworkSvcGroup gid, RemoteCall.deleteNetworkSvcGroup gid] ∧
    (zia_delete_url_category cid (some true) r1).2
        ++ (zia_delete_url_category cid (some true) r2).2
      = [RemoteCall.deleteUrlCategory cid, RemoteCall.deleteUrlCategory cid] ∧
    (zia_remove_urls_from_category cid cn urls (some true) payload r1).2
        ++ (zia_remove_urls_from_category cid cn urls (some true) payload r2).2
      = [RemoteCall.deleteUrlsFromCategory cid cn urls,
         RemoteCall.deleteUrlsFromCategory cid cn urls] := by
  have tns : ∀ r, (zia_delete_network_service sid (some true) r).2
      = [RemoteCall.deleteNetworkService sid] := by
    intro r
    simp only [zia_delete_network_service, check_confirmation,
      extract_confirmed_from_kwargs, Option.getD, if_true]
    rw [if_neg hs]
    split <;> rfl
  have tg : ∀ r, (zia_delete_network_svc_group gid (some true) r).2
      = [RemoteCall.deleteNetworkSvcGroup gid] := by
    intro r
    simp only [zia_delete_network_svc_group, check_confirmation,
      extract_confirmed_from_kwargs, Option.getD, if_true]
    rw [if_neg hg]
    split <;> rfl
  have tc : ∀ r, (zia_delete_url_category cid (some true) r).2
      = [RemoteCall.deleteUrlCategory cid] := by
    intro r
    simp only [zia_delete_url_category, check_confirmation,
      extract_confirmed_from_kwargs, Option.getD, if_true]
    rw [if_neg hc]
    split <;> rfl
  have tr : ∀ r, (zia_remove_urls_from_category cid cn urls (some true) payload r).2
      = [RemoteCall.deleteUrlsFromCategory cid cn urls] := by
    intro r
    simp only [zia_remove_urls_from_category, check_confirmation,
      extract_confirmed_from_kwargs, Option.getD, if_true]
    have hcond : ¬(cid = "" ∨ cn = "" ∨ urls.isEmpty = true) := by
      simp [hc, hn, List.isEmpty_iff, hu]
    rw [if_neg hcond]
    split <;> rfl
  refine ⟨by simp [tns], ?_, ?_, by simp [tg], by simp [tc], by simp [tr]⟩
  · intro hok
    simp [zia_delete_network_service, check_confirmation,
      extract_confirmed_from_kwargs, hs, hok]
  · intro e he hne
    subst he
    have herr : errTruthy (some e) = true := by simp [errTruthy, hne]
    simp [zia_delete_network_service, check_confirmation,
      extract_confirmed_from_kwargs, hs, herr]

/-- Witness for C9: two confirmed deletions of service "12345", the
second answered "not found" by the remote API. -/
theorem claim_C9_witness :
    (zia_delete_network_service "12345" (some true) none).2
        ++ (zia_delete_network_service "12345" (some true) (some "not found")).2
      = [RemoteCall.deleteNetworkService "12345", RemoteCall.deleteNetworkService "12345"] ∧
    (zia_delete_network_service "12345" (some true) (some "not found")).1
      = .error (.ex ("Failed to delete network service 12345: not found")) :=
  ⟨(claim_C9 "12345" "g" "c" "n" ["u"] none (some "not found") []
      (by decide) (by decide) (by decide) (by decide) (by decide)).1,
   by
    have h := (claim_C9 "12345" "g" "c" "n" ["u"] none (some "not found") []
      (by decide) (by decide) (by decide) (by decide) (by decide)).2.2.1
      "not found" rfl (by decide)
    simpa using h⟩

/-- With an in-range page and page size, the query assembly of
`zia_list_devices` succeeds and appends both pagination parameters. -/
theorem listDevicesQp_ok (name : Option String) (uids : Option ListOrStr)
    (inc : Option Bool) (p ps : Int) (uj : Option String)
    (hparse : parse_user_ids uids = .ok uj)
    (h1 : 1 ≤ p) (h2 : 1 ≤ ps) (h3 : ps ≤ 1000) :
    ∃ base, listDevicesQp name uids inc (some p) (some ps)
      = .ok (base ++ [("page", QVal.qi p)] ++ [("pageSize", QVal.qi ps)]) := by
  simp only [listDevicesQp, hparse]
  rw [if_neg (by omega)]
  simp only [pageSizeStep]
  rw [if_neg (by omega)]
  exact ⟨_, rfl⟩

/-- C10: `zia_list_devices` validates its pagination parameters
locally before the remote call — `page < 1`, or `page_size` outside
`[1, 1000]`, raises a validation error naming the parameter with no
remote list call issued; in-range values are forwarded as the `page`
and `pageSize` query parameters of the single remote call. -/
theorem claim_C10 :
    (∀ name uids inc p ps payload err uj,
        parse_user_ids uids = .ok uj → p < 1 →
        zia_list_devices name uids inc (some p) ps payload err
          = (.error (.invalid "page must be 1 or greater"), [])) ∧
    (∀ name uids inc p ps payload err uj,
        parse_user_ids uids = .ok uj → (∀ q, p = some q → 1 ≤ q) →
        (ps < 1 ∨ 1000 < ps) →
        zia_list_devices name uids inc p (some ps) payload err
          = (.error (.invalid "page_size must be between 1 and 1000"), [])) ∧
    (∀ name uids inc p ps payload err uj,
        parse_user_ids uids = .ok uj → 1 ≤ p → 1 ≤ ps → ps ≤ 1000 →
        ∃ qp, (zia_list_devices name uids inc (some p) (some ps) payload err).2
                = [RemoteCall.listDevices qp] ∧
              ("page", QVal.qi p) ∈ qp ∧ ("pageSize", QVal.qi ps) ∈ qp) := by
  refine ⟨?_, ?_, ?_⟩
  · intro name uids inc p ps payload err uj hparse hlt
    have hq : listDevicesQp name uids inc (some p) ps
        = .error (.invalid "page must be 1 or greater") := by
      simp only [listDevicesQp, hparse]
      rw [if_pos hlt]
    simp [zia_list_devices, hq]
  · intro name uids inc p ps payload err uj hparse hpg hbad
    have hq : listDevicesQp name uids inc p (some ps)
        = .error (.invalid "page_size must be between 1 and 1000") := by
      match p with
      | none =>
        simp only [listDevicesQp, hparse, pageSizeStep]
        rw [if_pos hbad]
      | some q =>
        have h1 : 1 ≤ q := hpg q rfl
        simp only [listDevicesQp, hparse]
        rw [if_neg (by omega)]
        simp only [pageSizeStep]
        rw [if_pos hbad]
    simp [zia_list_devices, hq]
  · intro name uids inc p ps payload err uj hparse h1 h2 h3
    obtain ⟨base, hq⟩ := listDevicesQp_ok name uids inc p ps uj hparse h1 h2 h3
    refine ⟨base ++ [("page", QVal.qi p)] ++ [("pageSize", QVal.qi ps)], ?_, by simp, by simp⟩
    simp only [zia_list_devices, hq]
    split <;> rfl

/-- Witness for C10 at concrete pagination values. -/
theorem claim_C10_witness :
    zia_list_devices none none none (some 0) none [] none
      = (.error (.invalid "page must be 1 or greater"), []) ∧
    zia_list_devices none none none (some 1) (some 5000) [] none
      = (.error (.invalid "page_size must be between 1 and 1000"), []) ∧
    (∃ qp, (zia_list_devices none none none (some 2) (some 500) [] none).2
            = [RemoteCall.listDevices qp] ∧
          ("page", QVal.qi 2) ∈ qp ∧ ("pageSize", QVal.qi 500) ∈ qp) :=
  ⟨claim_C10.1 none none none 0 none [] none none rfl (by omega),
   claim_C10.2.1 none none none (some 1) 5000 [] none none rfl
     (by intro q hq; cases hq; omega) (Or.inr (by omega)),
   claim_C10.2.2 none none none 2 500 [] none none rfl
     (by omega) (by omega) (by omega)⟩

end ZscalerMcp
